import Mathlib

/- Shallow embedding of the mermaid-gantt formatter (src/src/main.rs).

   Strings are modelled as lists of Unicode scalar values (`List Char`).
   Rust `str::chars().count()` is `List.length`; Rust `str::len()` (UTF-8
   byte count) is `utf8Len`.  Functions that can panic in the source
   (`Option::unwrap`, slice indexing) are modelled as `Option`-valued,
   returning `none` exactly where the source panics. -/

set_option maxRecDepth 8000

abbrev Str := List Char

def str (s : String) : Str := s.data

/-- Whitespace test used by `str::trim` / `str::trim_start` (ASCII cases). -/
def wsChar (c : Char) : Bool := c = ' ' || c = '\t' || c = '\n' || c = '\r'

/-- Rust `str::trim_start`. -/
def trimStart (s : Str) : Str := s.dropWhile wsChar

/-- Rust `str::trim_end`. -/
def trimEnd (s : Str) : Str := (s.reverse.dropWhile wsChar).reverse

/-- Rust `str::trim`. -/
def trim (s : Str) : Str := trimEnd (trimStart s)

/-- `strPre pat s` : `pat` is a prefix of `s` (Rust `str::starts_with`). -/
def strPre : Str → Str → Bool
  | [], _ => true
  | _ :: _, [] => false
  | p :: ps, c :: cs => p = c && strPre ps cs

/-- `strIn pat s` : `pat` occurs as a contiguous substring of `s`
    (Rust `str::contains`). -/
def strIn (pat : Str) : Str → Bool
  | [] => pat.isEmpty
  | c :: cs => strPre pat (c :: cs) || strIn pat cs

/-- Rust `line.starts_with(pat)`. -/
def startsWith (s pat : Str) : Bool := strPre pat s

/-- Rust `line.contains(pat)`. -/
def containsStr (s pat : Str) : Bool := strIn pat s

/-- Rust `str::strip_prefix`: `some rest` when `pat` is a prefix, else `none`. -/
def dropPre : Str → Str → Option Str
  | [], s => some s
  | _ :: _, [] => none
  | p :: ps, c :: cs => if p = c then dropPre ps cs else none

def splitOnAux (sep : Char) : Str → Str → List Str
  | [], acc => [acc.reverse]
  | c :: cs, acc =>
    if c = sep then acc.reverse :: splitOnAux sep cs []
    else splitOnAux sep cs (c :: acc)

/-- Rust `str::split` on a one-character pattern: always returns at least
    one segment; a separator at either end yields an empty segment. -/
def splitOn (sep : Char) (s : Str) : List Str := splitOnAux sep s []

/-- Rust `str::len`: UTF-8 byte count of the string. -/
def utf8Len (s : Str) : Nat := (s.map Char.utf8Size).sum

/-- `MMD_GANTT_KWS` from main.rs: the 23 configuration keywords. -/
def MMD_GANTT_KWS : List Str :=
  [str "axisFormat", str "barGap", str "barHeight", str "bottomMarginAdj",
   str "dateFormat", str "displayMode", str "excludes", str "fontSize",
   str "gantt", str "gridLineStartPadding", str "leftPadding",
   str "mirrorActor", str "numberSectionStyles", str "rightPadding",
   str "sectionFontSize", str "tickInterval", str "title",
   str "titleTopMargin", str "todayMarker", str "topAxis", str "topPadding",
   str "weekday", str "weekend"]

/-- `TASK_TAGS` from main.rs: the 4 recognized metadata tags. -/
def TASK_TAGS : List Str := [str "done", str "active", str "crit", str "milestone"]

/-- The `HashMap<&str, usize>` of `get_max_item_lengths`, which always holds
    exactly the keys `max_len_title`, `max_len_task_id`, `max_len_start`,
    `max_len_end`, modelled as a record. -/
structure ItemLengths where
  max_len_title : Nat
  max_len_task_id : Nat
  max_len_start : Nat
  max_len_end : Nat
deriving DecidableEq

/-- Rust `usize::checked_sub`. -/
def checkedSub (a b : Nat) : Option Nat := if b ≤ a then some (a - b) else none

/-- `pad_string` from main.rs.  The Rust guard is
    `!len_diff.is_none() && len_diff < Some(max_length)`; on `Option`,
    `some d < some m` is `d < m`. -/
def pad_string (string : Str) (max_length : Nat) : Str :=
  match checkedSub max_length string.length with
  | some d => if d < max_length then string ++ List.replicate d ' ' else string
  | none => string

/-- `split_meta_tags` from main.rs.  Returns the pair (tags, udis): the
    `"tags"` entry is every non-empty trimmed comma-token; the `"udis"`
    entry is every non-empty trimmed comma-token not in `tags` vocabulary. -/
def split_meta_tags (tags : List Str) (metadata : Str) : List Str × List Str :=
  let meta_items := (splitOn ',' metadata).map trim
  let task_tags := meta_items.filter (fun x => !x.isEmpty)
  let task_udis := meta_items.filter (fun line => !line.isEmpty && !tags.contains line)
  (task_tags, task_udis)

/-- `find_longest_string` from main.rs: `none` on an empty slice, else the
    first element of maximal **byte** length (`string.len()` in Rust). -/
def find_longest_string (strings : List Str) : Option Str :=
  match strings with
  | [] => none
  | s0 :: _ =>
    some (strings.foldl (fun longest string =>
      if utf8Len string > utf8Len longest then string else longest) s0)

/-- The filter closure inside `get_task_lines` from main.rs. -/
def task_line_filter (line : Str) : Bool :=
  !(MMD_GANTT_KWS.any (fun tag => containsStr line tag)) &&
  !(startsWith line (str "%%")) && containsStr line (str ":")

/-- `get_task_lines` from main.rs. -/
def get_task_lines (lines : List Str) : List Str :=
  (lines.map trim).filter task_line_filter

/-- The accumulation loop of `get_max_item_lengths`: the four vectors
    (titles, ids, starts, ends) pushed in iteration order. -/
def collect_task_items (tags : List Str) : List Str → List Str × List Str × List Str × List Str
  | [] => ([], [], [], [])
  | line :: rest =>
    let (ts, ids, ss, es) := collect_task_items tags rest
    let metadata := (splitOn ':' line).map trim
    let title := metadata.getD 0 []
    let task_udis := (split_meta_tags tags (metadata.getD 1 [])).2
    match task_udis with
    | [a, b, c] => (title :: ts, a :: ids, b :: ss, c :: es)
    | [a, b] => (title :: ts, ids, a :: ss, b :: es)
    | [a] => (title :: ts, ids, ss, a :: es)
    | _ => (title :: ts, ids, ss, es)

/-- `get_max_item_lengths` from main.rs.  `_get_count` is
    `option.unwrap().chars().count()`: it panics (`none` here) when
    `find_longest_string` returned `None`, i.e. when a column saw no value. -/
def get_max_item_lengths (tags : List Str) (lines : List Str) : Option ItemLengths :=
  let cols := collect_task_items tags (get_task_lines lines)
  match find_longest_string cols.1, find_longest_string cols.2.1,
        find_longest_string cols.2.2.1, find_longest_string cols.2.2.2 with
  | some t, some i, some s, some e => some ⟨t.length, i.length, s.length, e.length⟩
  | _, _, _, _ => none

/-- `push_tags_to_task_line` from main.rs. -/
def push_tags_to_task_line (task_line : Str) (task_tags : List Str) : Str :=
  let t1 :=
    if task_tags.contains (str "active") then task_line ++ str "active,  "
    else if task_tags.contains (str "done") then task_line ++ str "done  ,  "
    else task_line ++ List.replicate 9 ' '
  let t2 :=
    if task_tags.contains (str "crit") then t1 ++ str "crit,  "
    else t1 ++ List.replicate 7 ' '
  if task_tags.contains (str "milestone") then t2 ++ str "milestone,  "
  else t2 ++ List.replicate 12 ' '

/-- `push_udis_to_task_line` from main.rs. -/
def push_udis_to_task_line (task_line : Str) (task_udis : List Str) (m : ItemLengths) : Str :=
  match task_udis with
  | [a, b, c] =>
    task_line ++ pad_string a m.max_len_task_id ++ str ",  " ++
      pad_string b m.max_len_start ++ str ",  " ++ pad_string c m.max_len_end
  | [a, b] =>
    task_line ++ List.replicate m.max_len_task_id ' ' ++ str "   " ++
      pad_string a m.max_len_start ++ str ",  " ++ pad_string b m.max_len_end
  | [a] =>
    task_line ++ List.replicate m.max_len_task_id ' ' ++ str "   " ++
      List.replicate m.max_len_start ' ' ++ str "   " ++ pad_string a m.max_len_end
  | _ => task_line

/-- `push_task_line` from main.rs.  `none` models the panics: indexing
    `task_split[1]` on a line with no colon, and the inner
    `strip_prefix("%%").unwrap()` (unreachable there, guarded). -/
def push_task_line (line : Str) (m : ItemLengths) (new_lines : List Str) :
    Option (List Str) :=
  match (splitOn ':' line).map trim with
  | task0 :: task1 :: _ =>
    let task_line := pad_string task0 m.max_len_title ++ str "  : "
    let meta_items := split_meta_tags TASK_TAGS task1
    let task_line := push_tags_to_task_line task_line meta_items.1
    let task_line := push_udis_to_task_line task_line meta_items.2 m
    if startsWith task_line (str "%%") then
      match dropPre (str "%%") task_line with
      | some rest =>
        match (splitOn ':' rest).map trimStart with
        | c0 :: c1 :: _ =>
          some (new_lines ++ [str "%%  " ++ pad_string c0 m.max_len_title ++ str "  : " ++ c1])
        | _ => none
      | none => none
    else
      some (new_lines ++ [str "    " ++ task_line])
  | _ => none

/-- `push_section_line` from main.rs.  `none` models the panic of
    `line.strip_prefix("section").unwrap()` when the line contains
    "section" but does not start with it. -/
def push_section_line (line : Str) (new_lines : List Str) : Option (List Str) :=
  match dropPre (str "section") line with
  | some rest => some (new_lines ++ [str "\n  section " ++ trim rest])
  | none => none

/-- `line_is_empty_before_section` from main.rs; `allLines` is the full
    collected sequence of trimmed lines (`c_map_lines`). -/
def line_is_empty_before_section (line : Str) (idx : Nat) (allLines : List Str) : Bool :=
  if idx + 1 < allLines.length then
    !allLines.isEmpty && line.isEmpty && containsStr (allLines.getD (idx + 1) []) (str "section")
  else false

/-- `line_is_keyword` from main.rs. -/
def line_is_keyword (line : Str) : Bool :=
  MMD_GANTT_KWS.any (fun tag => startsWith line tag)

/-- `line_is_task` from main.rs. -/
def line_is_task (line : Str) : Bool := containsStr line (str ":")

/-- `line_is_commented_section` from main.rs. -/
def line_is_commented_section (line : Str) : Bool :=
  startsWith line (str "%%") && containsStr line (str "section")

/-- `line_is_comment` from main.rs. -/
def line_is_comment (line : Str) : Bool :=
  startsWith line (str "%%") && !containsStr line (str ":")

/-- `line_is_title` from main.rs. -/
def line_is_title (line : Str) : Bool := startsWith line (str "gantt")

/-- The `for (_idx, line) in map_lines.enumerate()` loop body of
    `generate_new_lines`, with the source's branch order. -/
def genLoop (m : ItemLengths) (allLines : List Str) :
    Nat → List Str → List Str → Option (List Str)
  | _, [], new_lines => some new_lines
  | idx, line :: rest, new_lines =>
    if line_is_title line then
      genLoop m allLines (idx + 1) rest (new_lines ++ [line])
    else if line_is_keyword line then
      genLoop m allLines (idx + 1) rest (new_lines ++ [str "  " ++ line])
    else if line_is_commented_section line then
      genLoop m allLines (idx + 1) rest (new_lines ++ [[], line])
    else if line_is_comment line then
      genLoop m allLines (idx + 1) rest (new_lines ++ [line])
    else if line_is_empty_before_section line idx allLines then
      genLoop m allLines (idx + 1) rest new_lines
    else if containsStr line (str "section") then
      match push_section_line line new_lines with
      | some nl => genLoop m allLines (idx + 1) rest nl
      | none => none
    else if line_is_task line then
      match push_task_line line m new_lines with
      | some nl => genLoop m allLines (idx + 1) rest nl
      | none => none
    else if !line.isEmpty then
      genLoop m allLines (idx + 1) rest (new_lines ++ [line])
    else
      genLoop m allLines (idx + 1) rest new_lines

/-- `generate_new_lines` from main.rs.  Width computation happens first
    (and its panic aborts the run); then each trimmed line is classified
    and rendered; one empty line is appended at the end. -/
def generate_new_lines (lines : List Str) : Option (List Str) :=
  match get_max_item_lengths TASK_TAGS lines with
  | none => none
  | some m =>
    let tl := lines.map trim
    match genLoop m tl 0 tl [] with
    | some nl => some (nl ++ [[]])
    | none => none

/-- `Vec::join("\n")` used by `main` on the generated lines. -/
def joinLines : List Str → Str
  | [] => []
  | [x] => x
  | x :: xs => x ++ '\n' :: joinLines xs

/-- Rust `str::lines` used by `main` on the file text: split at `'\n'`,
    the final line ending optional, a trailing `'\r'` stripped per line. -/
def rustLines (s : Str) : List Str :=
  if s.isEmpty then []
  else
    let parts := splitOn '\n' s
    let parts := if parts.getLast? = some [] then parts.dropLast else parts
    parts.map (fun l => if l.getLast? = some '\r' then l.dropLast else l)

/- ------------------------------------------------------------------ -/
/- Derived notions used to state the claims.                           -/
/- ------------------------------------------------------------------ -/

/-- The Line Classifier's `Task` case: the conjunction of the negated
    earlier guards of the `generate_new_lines` branch chain, in source
    order, ending in `line_is_task`. -/
def classified_as_task (allLines : List Str) (idx : Nat) : Bool :=
  let line := allLines.getD idx []
  !line_is_title line && !line_is_keyword line && !line_is_commented_section line &&
  !line_is_comment line && !line_is_empty_before_section line idx allLines &&
  !containsStr line (str "section") && line_is_task line

/-- Character offset of the first `:` in a rendered line. -/
def colonOffset (s : Str) : Nat := (s.takeWhile (fun c => c ≠ ':')).length

/-- Spec-side definition (claim C6 wording): the maximum Unicode scalar
    count over all observed values of a column. -/
def spec_max_char_len (l : List Str) : Nat := l.foldr (fun s acc => max s.length acc) 0

/-- Spec-side definition (claim C9 wording): the tag set is exactly the
    non-empty trimmed comma-tokens string-equal to a vocabulary tag. -/
def spec_tag_tokens (metadata : Str) : List Str :=
  ((splitOn ',' metadata).map trim).filter (fun t => !t.isEmpty && TASK_TAGS.contains t)

/-- Spec-side definition (claim C9 wording): the user-defined items are the
    remaining non-empty tokens, in their original order. -/
def spec_udi_tokens (metadata : Str) : List Str :=
  ((splitOn ',' metadata).map trim).filter (fun t => !t.isEmpty && !TASK_TAGS.contains t)

/-- A prefix occurrence is in particular a substring occurrence. -/
theorem strPre_strIn (p s : Str) (h : strPre p s = true) : strIn p s = true := by
  cases s with
  | nil =>
    cases p with
    | nil => rfl
    | cons a as => simp [strPre] at h
  | cons c cs => simp [strIn, h]

/- ------------------------------------------------------------------ -/
/- Claims                                                              -/
/- ------------------------------------------------------------------ -/

/-- C1: the claim says a column with no observed value gets width 0 and
    formatting completes without error.  In the code, `_get_count` calls
    `Option::unwrap` on the result of `find_longest_string`, which is
    `None` for a column with no observed values, so the program panics:
    on a document with no task lines at all, and on one whose only task
    line has two user-defined items (no id ever observed). -/
theorem c1_no_observed_value_aborts :
    generate_new_lines [str "gantt"] = none
    ∧ get_max_item_lengths TASK_TAGS [str "A task :2014-01-01, 30d"] = none := by decide

/-- C2: the claim says rendering a section line never aborts even when
    "section" occurs mid-line.  In the code, `push_section_line` calls
    `line.strip_prefix("section").unwrap()`, which panics for a line that
    contains "section" but does not start with it; the width pass on the
    same document succeeds, so the abort comes from section rendering. -/
theorem c2_midline_section_aborts :
    (get_max_item_lengths TASK_TAGS [str "t :i, s, e", str "a section b"]).isSome = true
    ∧ generate_new_lines [str "t :i, s, e", str "a section b"] = none := by decide

/-- C3: formatting is not idempotent.  The width pass counts the line
    "section   AAAA: B" as a task line (it contains a colon, no keyword,
    no comment prefix), giving title width 14; the section renderer
    rewrites it as "section AAAA: B", so the second run computes title
    width 12 and pads the real task line differently.  Both runs succeed
    yet the second output differs from the first. -/
theorem c3_not_idempotent :
    ((generate_new_lines [str "t :i, s, e", str "section   AAAA: B"]).bind
        (fun o => generate_new_lines (rustLines (joinLines o)))).isSome = true
    ∧ (generate_new_lines [str "t :i, s, e", str "section   AAAA: B"]).bind
        (fun o => generate_new_lines (rustLines (joinLines o)))
      ≠ generate_new_lines [str "t :i, s, e", str "section   AAAA: B"] := by decide

/-- C4: the `:` offset is not identical across rendered task lines.  A
    commented-out task is excluded from the width pass, and its title is
    padded with the `%%` marker still attached, so when the raw
    `%% LONGTITLE` exceeds the computed title width the comment's colon
    lands at offset 17 while the ordinary task's colon is at offset 7. -/
theorem c4_colon_offset_not_uniform :
    (generate_new_lines [str "t :i, s, e", str "%% LONGTITLE :a, b, c"]).isSome = true
    ∧ colonOffset (((generate_new_lines [str "t :i, s, e", str "%% LONGTITLE :a, b, c"]).getD []).getD 0 []) = 7
    ∧ colonOffset (((generate_new_lines [str "t :i, s, e", str "%% LONGTITLE :a, b, c"]).getD []).getD 1 []) = 17 := by decide

/-- C5: content is not always preserved.  `push_task_line` splits the line
    at every colon and keeps only pieces 0 and 1, so the metadata text
    after a second colon ("junk" here) is silently dropped from the
    output, although the run succeeds. -/
theorem c5_drops_text_after_second_colon :
    (generate_new_lines [str "t :i, s, e:junk"]).isSome = true
    ∧ containsStr (joinLines [str "t :i, s, e:junk"]) (str "junk") = true
    ∧ containsStr (joinLines ((generate_new_lines [str "t :i, s, e:junk"]).getD [])) (str "junk") = false := by decide

/-- C6: the computed column width is not the maximum Unicode scalar count.
    `find_longest_string` compares UTF-8 byte lengths while `_get_count`
    counts scalars, so for titles "éé" (4 bytes, 2 chars) and "abc"
    (3 bytes, 3 chars) the computed title width is 2 although the maximum
    scalar count is 3. -/
theorem c6_width_is_charcount_of_byte_longest :
    (get_max_item_lengths TASK_TAGS [str "éé :i, s, e", str "abc :i2, s2, e2"]).map
        ItemLengths.max_len_title = some 2
    ∧ spec_max_char_len
        (collect_task_items TASK_TAGS
          (get_task_lines [str "éé :i, s, e", str "abc :i2, s2, e2"])).1 = 3 := by decide

/-- C7 counterexample: a commented-out task line is classified `Task` by
    the classifier but rejected by the width pass's filter, refuting the
    claimed agreement. -/
theorem c7_counterexample :
    classified_as_task [str "%% t :a"] 0 = true
    ∧ task_line_filter (str "%% t :a") = false := by decide

/-- C7 (amended): the width pass's filter (no keyword **contained**, no
    `%%` prefix, contains a colon) agrees with the classifier's `Task`
    case on every trimmed line that does not start with `%%`, does not
    contain "section", and contains a configuration keyword only when it
    starts with one.  Without those provisos the two disagree. -/
theorem c7_filter_matches_classifier (allLines : List Str) (idx : Nat)
    (hpc : startsWith (allLines.getD idx []) (str "%%") = false)
    (hsec : containsStr (allLines.getD idx []) (str "section") = false)
    (hkw : ∀ kw ∈ MMD_GANTT_KWS, containsStr (allLines.getD idx []) kw = true →
      startsWith (allLines.getD idx []) kw = true) :
    task_line_filter (allLines.getD idx []) = classified_as_task allLines idx := by
  suffices h : ∀ line : Str, startsWith line (str "%%") = false →
      containsStr line (str "section") = false →
      (∀ kw ∈ MMD_GANTT_KWS, containsStr line kw = true → startsWith line kw = true) →
      task_line_filter line =
        (!line_is_title line && !line_is_keyword line && !line_is_commented_section line &&
         !line_is_comment line && !line_is_empty_before_section line idx allLines &&
         !containsStr line (str "section") && line_is_task line) by
    exact h (allLines.getD idx []) hpc hsec hkw
  intro line hpc2 hsec2 hkw2
  cases hc : containsStr line (str ":") with
  | false =>
    have hl : task_line_filter line = false := by
      simp only [task_line_filter, hc, Bool.and_false]
    have hr : (!line_is_title line && !line_is_keyword line && !line_is_commented_section line &&
        !line_is_comment line && !line_is_empty_before_section line idx allLines &&
        !containsStr line (str "section") && line_is_task line) = false := by
      simp only [line_is_task, hc, Bool.and_false]
    rw [hl, hr]
  | true =>
    have hie : line.isEmpty = false := by
      cases line with
      | nil => exact absurd hc (by decide)
      | cons a as => rfl
    have hies : line_is_empty_before_section line idx allLines = false := by
      simp [line_is_empty_before_section, hie]
    have hcs : line_is_commented_section line = false := by
      simp [line_is_commented_section, hpc2]
    have hcm : line_is_comment line = false := by
      simp [line_is_comment, hpc2]
    have hany : (MMD_GANTT_KWS.any fun tag => containsStr line tag) =
        (MMD_GANTT_KWS.any fun tag => startsWith line tag) := by
      refine Bool.eq_iff_iff.mpr ?_
      simp only [List.any_eq_true]
      constructor
      · rintro ⟨kw, hmem, hcont⟩
        exact ⟨kw, hmem, hkw2 kw hmem hcont⟩
      · rintro ⟨kw, hmem, hpre⟩
        exact ⟨kw, hmem, strPre_strIn kw line hpre⟩
    have htk : line_is_title line = true → line_is_keyword line = true := by
      intro h
      exact List.any_eq_true.mpr ⟨str "gantt", by decide, h⟩
    cases hap : (MMD_GANTT_KWS.any fun tag => startsWith line tag) with
    | true =>
      have hl : task_line_filter line = false := by
        simp only [task_line_filter, hany, hap, Bool.not_true, Bool.false_and]
      have hr : (!line_is_title line && !line_is_keyword line && !line_is_commented_section line &&
          !line_is_comment line && !line_is_empty_before_section line idx allLines &&
          !containsStr line (str "section") && line_is_task line) = false := by
        simp only [line_is_keyword, hap, Bool.not_true, Bool.and_false, Bool.false_and]
      rw [hl, hr]
    | false =>
      have ht : line_is_title line = false := by
        cases h : line_is_title line with
        | false => rfl
        | true =>
          have hk := htk h
          rw [line_is_keyword, hap] at hk
          exact absurd hk (by decide)
      have hl : task_line_filter line = true := by
        simp only [task_line_filter, hany, hap, hpc2, hc, Bool.not_false, Bool.true_and,
          Bool.and_true]
      have hr : (!line_is_title line && !line_is_keyword line && !line_is_commented_section line &&
          !line_is_comment line && !line_is_empty_before_section line idx allLines &&
          !containsStr line (str "section") && line_is_task line) = true := by
        simp only [line_is_keyword, line_is_task, hap, ht, hcs, hcm, hies, hsec2, hc,
          Bool.not_false, Bool.true_and, Bool.and_true]
      rw [hl, hr]

/-- C7 witness: the agreement theorem applied to the concrete document
    ["t :a"], where all three provisos hold. -/
theorem c7_filter_matches_classifier_witness :
    task_line_filter ([str "t :a"].getD 0 []) = classified_as_task [str "t :a"] 0 :=
  c7_filter_matches_classifier [str "t :a"] 0 (by decide) (by decide) (by decide)

/-- C8 counterexample: for the document ["t :i, s, e", "", "u :a, b, c"]
    the blank middle line (not before a section) emits nothing: the output
    is two task lines plus the single final empty line, with no empty line
    at position 1, refuting "emits exactly one empty line at that
    position". -/
theorem c8_counterexample :
    (generate_new_lines [str "t :i, s, e", [], str "u :a, b, c"]).isSome = true
    ∧ ((generate_new_lines [str "t :i, s, e", [], str "u :a, b, c"]).getD []).length = 3
    ∧ ((generate_new_lines [str "t :i, s, e", [], str "u :a, b, c"]).getD []).getD 1 [] ≠ []
    ∧ ((generate_new_lines [str "t :i, s, e", [], str "u :a, b, c"]).getD []).count ([] : Str) = 1 := by decide

/-- C8 (amended): a blank input line that is not immediately followed by a
    section-header line is dropped: the render loop emits nothing for it
    (every blank line falls through all branches, since the final
    passthrough branch requires a non-empty line). -/
theorem c8_blank_line_emits_nothing (m : ItemLengths) (allLines : List Str) (idx : Nat)
    (line : Str) (rest new_lines : List Str)
    (hempty : line.isEmpty = true)
    (hsec : line_is_empty_before_section line idx allLines = false) :
    genLoop m allLines idx (line :: rest) new_lines =
      genLoop m allLines (idx + 1) rest new_lines := by
  have hl : line = [] := by
    cases line with
    | nil => rfl
    | cons c cs => simp [List.isEmpty] at hempty
  subst hl
  have h1 : line_is_title ([] : Str) = false := by decide
  have h2 : line_is_keyword ([] : Str) = false := by decide
  have h3 : line_is_commented_section ([] : Str) = false := by decide
  have h4 : line_is_comment ([] : Str) = false := by decide
  have h5 : containsStr ([] : Str) (str "section") = false := by decide
  have h6 : line_is_task ([] : Str) = false := by decide
  simp [genLoop, h1, h2, h3, h4, h5, h6, hsec]

/-- C8 witness: the skip theorem applied at a concrete blank line whose
    successor is not a section header. -/
theorem c8_blank_line_emits_nothing_witness :
    genLoop ⟨1, 1, 1, 1⟩ [[], str "x"] 0 [[], str "x"] [] =
      genLoop ⟨1, 1, 1, 1⟩ [[], str "x"] 1 [str "x"] [] :=
  c8_blank_line_emits_nothing ⟨1, 1, 1, 1⟩ [[], str "x"] 0 [] [str "x"] [] (by decide) (by decide)

/-- C9 counterexample: for metadata "a1, done" the splitter's tag list is
    ["a1", "done"], which contains the non-vocabulary token "a1", so the
    returned tag set is not "exactly those tokens string-equal to one of
    done, active, crit, milestone". -/
theorem c9_counterexample :
    (split_meta_tags TASK_TAGS (str "a1, done")).1 ≠ spec_tag_tokens (str "a1, done")
    ∧ str "a1" ∈ (split_meta_tags TASK_TAGS (str "a1, done")).1
    ∧ str "a1" ∉ TASK_TAGS := by decide

/-- C9 (amended): the splitter's tag list is every non-empty trimmed token
    (not only vocabulary ones), but membership of each vocabulary tag in
    it coincides with the claimed tag set, and the user-defined items are
    exactly the non-empty non-vocabulary tokens in their original order,
    independent of position. -/
theorem c9_tags_and_udis (metadata : Str) (t : Str) (ht : t ∈ TASK_TAGS) :
    ((t ∈ (split_meta_tags TASK_TAGS metadata).1) ↔ t ∈ spec_tag_tokens metadata)
    ∧ (split_meta_tags TASK_TAGS metadata).2 = spec_udi_tokens metadata := by
  have hct : TASK_TAGS.contains t = true := by simpa using ht
  constructor
  · constructor
    · intro h
      rcases List.mem_filter.mp h with ⟨hmem, hp⟩
      refine List.mem_filter.mpr ⟨hmem, ?_⟩
      simp only [Bool.and_eq_true]
      exact ⟨hp, hct⟩
    · intro h
      rcases List.mem_filter.mp h with ⟨hmem, hp⟩
      have hp1 : (!t.isEmpty) = true := by
        simp only [Bool.and_eq_true] at hp
        exact hp.1
      exact List.mem_filter.mpr ⟨hmem, hp1⟩
  · rfl

/-- C9 witness: the amended theorem applied at metadata "a1, done" and the
    vocabulary tag "done". -/
theorem c9_tags_and_udis_witness :
    ((str "done" ∈ (split_meta_tags TASK_TAGS (str "a1, done")).1) ↔
      str "done" ∈ spec_tag_tokens (str "a1, done"))
    ∧ (split_meta_tags TASK_TAGS (str "a1, done")).2 = spec_udi_tokens (str "a1, done") :=
  c9_tags_and_udis (str "a1, done") (str "done") (by decide)

/-- C10: `pad_string` right-pads a string of scalar count in (0, w) with
    spaces to exactly w scalars, and returns the string unchanged when its
    count is at least w or when it is empty — the guard
    `len_diff < Some(max_length)` fails exactly when the count is 0. -/
theorem c10_pad_string_spec (s : Str) (w : Nat) :
    (0 < s.length → s.length < w →
      pad_string s w = s ++ List.replicate (w - s.length) ' '
        ∧ (pad_string s w).length = w)
    ∧ (w ≤ s.length → pad_string s w = s)
    ∧ (s = [] → pad_string s w = s) := by
  refine ⟨fun h1 h2 => ?_, fun h => ?_, fun h => ?_⟩
  · have hsub : checkedSub w s.length = some (w - s.length) := by
      simp [checkedSub, Nat.le_of_lt h2]
    have hlt : w - s.length < w := by omega
    have hps : pad_string s w = s ++ List.replicate (w - s.length) ' ' := by
      simp only [pad_string]
      rw [hsub]
      exact if_pos hlt
    refine ⟨hps, ?_⟩
    rw [hps]
    simp only [List.length_append, List.length_replicate]
    omega
  · rcases Nat.eq_or_lt_of_le h with heq | hlt
    · have hsub : checkedSub w s.length = some 0 := by
        simp [checkedSub, heq]
      simp only [pad_string]
      rw [hsub]
      by_cases hw : 0 < w
      · show (if 0 < w then s ++ List.replicate 0 ' ' else s) = s
        rw [if_pos hw]
        simp
      · show (if 0 < w then s ++ List.replicate 0 ' ' else s) = s
        rw [if_neg hw]
    · have hsub : checkedSub w s.length = none := by
        simp only [checkedSub, ite_eq_right_iff]
        omega
      simp only [pad_string]
      rw [hsub]
  · subst h
    simp [pad_string, checkedSub]

/-- C10 witness: the padding theorem applied at "ab" with width 4, "abc"
    with width 2, and the empty string with width 5. -/
theorem c10_pad_string_spec_witness :
    (pad_string (str "ab") 4 = str "ab" ++ List.replicate 2 ' '
      ∧ (pad_string (str "ab") 4).length = 4)
    ∧ pad_string (str "abc") 2 = str "abc"
    ∧ pad_string [] 5 = ([] : Str) :=
  ⟨(c10_pad_string_spec (str "ab") 4).1 (by decide) (by decide),
   (c10_pad_string_spec (str "abc") 2).2.1 (by decide),
   (c10_pad_string_spec [] 5).2.2 rfl⟩
